import Mathlib

/-!
Shallow embedding of the FPL injury-risk data pipeline
(src/backend/fetch_player_history.py, src/backend/fetch_fixture_congestion.py,
src/backend/merge_all_datasets.py).

Modelling conventions:
* a player's gameweek history is the list of its per-entry minutes (the only
  field the aggregator reads), ordered oldest to newest;
* kickoff timestamps are epoch seconds (`ℕ`); an absent or unparseable
  kickoff_time is `none` (the code skips both silently);
* Python float arithmetic is modelled over `ℚ`; `round(x, 1)` is modelled by
  `round1` (round half to even, as Python's built-in round);
* a pandas column that can hold NaN is modelled as an `Option` field;
* only the columns the verified properties touch are carried through the
  merge; all of them are translated field-for-field from the source.
-/

/-- Round half to even on `ℚ` (semantics of Python's built-in `round`). -/
def roundHalfEven (q : ℚ) : ℤ :=
  if Int.fract q < 1/2 then ⌊q⌋
  else if 1/2 < Int.fract q then ⌊q⌋ + 1
  else if 2 ∣ ⌊q⌋ then ⌊q⌋ else ⌊q⌋ + 1

/-- Python's `round(x, 1)`: round to one decimal place. -/
def round1 (q : ℚ) : ℚ := (roundHalfEven (q * 10) : ℚ) / 10

/-! ## fetch_player_history.py -/

/-- One row of the per-player history table built by `fetch_player_history`. -/
structure PlayerHistoryRow where
  player_id : ℕ
  player_name : String
  games_played : ℕ
  recent_minutes_last_5 : ℕ
  recent_games_last_5 : ℕ
  avg_minutes_per_game_last_5 : ℚ
  times_unavailable_last_10 : ℕ
  max_consecutive_unavailable : ℕ
  total_minutes_last_10 : ℕ
  games_started_last_10 : ℕ
  workload_trend : String
deriving DecidableEq

/-- The all-zero placeholder row emitted for an empty history
(trend "none") and for a failed per-player fetch (trend "error"). -/
def zeroHistoryRow (pid : ℕ) (name : String) (trend : String) : PlayerHistoryRow :=
  { player_id := pid, player_name := name, games_played := 0,
    recent_minutes_last_5 := 0, recent_games_last_5 := 0,
    avg_minutes_per_game_last_5 := 0, times_unavailable_last_10 := 0,
    max_consecutive_unavailable := 0, total_minutes_last_10 := 0,
    games_started_last_10 := 0, workload_trend := trend }

/-- The running max of consecutive zero-minute entries, scanning the whole
history (the `consecutive_count` / `max_consecutive` loop). -/
def maxConsecutiveZeros (history : List ℕ) : ℕ :=
  (history.foldl
    (fun st m => if m = 0 then (st.1 + 1, max st.2 (st.1 + 1)) else (0, st.2))
    ((0, 0) : ℕ × ℕ)).2

/-- The metrics computed for one player from a non-missing (possibly empty)
gameweek history; the body of the `try` block of `fetch_player_history`. -/
def computePlayerHistory (pid : ℕ) (name : String) (history : List ℕ) :
    PlayerHistoryRow :=
  if history = [] then zeroHistoryRow pid name "none"
  else
    let last5 := history.drop (history.length - 5)
    let recentMinutes5 := last5.sum
    let recentGames5 := (last5.filter (fun g => 0 < g)).length
    let avgMinutes5 : ℚ :=
      if last5 = [] then 0 else (recentMinutes5 : ℚ) / (last5.length : ℚ)
    let last10 := history.drop (history.length - 10)
    let trend :=
      if 10 ≤ history.length then
        let firstHalfAvg : ℚ := (((history.drop (history.length - 10)).take 5).sum : ℚ) / 5
        let secondHalfAvg : ℚ := ((history.drop (history.length - 5)).sum : ℚ) / 5
        if firstHalfAvg * (13/10) < secondHalfAvg then "increasing"
        else if secondHalfAvg < firstHalfAvg * (7/10) then "decreasing"
        else "stable"
      else "insufficient_data"
    { player_id := pid, player_name := name, games_played := history.length,
      recent_minutes_last_5 := recentMinutes5,
      recent_games_last_5 := recentGames5,
      avg_minutes_per_game_last_5 := round1 avgMinutes5,
      times_unavailable_last_10 := (last10.filter (fun g => g = 0)).length,
      max_consecutive_unavailable := maxConsecutiveZeros history,
      total_minutes_last_10 := last10.sum,
      games_started_last_10 := (last10.filter (fun g => 60 ≤ g)).length,
      workload_trend := trend }

/-- The per-player loop of `fetch_player_history`: `source pid = none` models
any exception while fetching or processing that player's history (the
`except` branch appends the "error" placeholder and continues). -/
def fetch_player_history (players : List (ℕ × String))
    (source : ℕ → Option (List ℕ)) : List PlayerHistoryRow :=
  players.map fun p =>
    match source p.1 with
    | some history => computePlayerHistory p.1 p.2 history
    | none => zeroHistoryRow p.1 p.2 "error"

/-! ## fetch_fixture_congestion.py -/

/-- One fixture from the league fixture list. `kickoff_time` is `none` when
the field is absent or its timestamp does not parse (both are skipped). -/
structure Fixture where
  team_h : ℕ
  team_a : ℕ
  finished : Bool
  kickoff_time : Option ℕ
deriving DecidableEq

/-- One row of the team congestion table. `avg_days_between_fixtures` is
`none` exactly when the code stores Python `None`. -/
structure TeamCongestionRow where
  team_id : ℕ
  team_name : String
  total_upcoming_fixtures : ℕ
  next_5_fixtures_count : ℕ
  avg_days_between_fixtures : Option ℚ
  congestion_level : String
  home_fixtures_upcoming : ℕ
  away_fixtures_upcoming : ℕ
deriving DecidableEq

/-- Upcoming fixtures where the team plays at home (source order). -/
def homeFixtures (tid : ℕ) (fixtures : List Fixture) : List Fixture :=
  (fixtures.filter (fun f => !f.finished)).filter (fun f => f.team_h == tid)

/-- Upcoming fixtures where the team plays away (source order). -/
def awayFixtures (tid : ℕ) (fixtures : List Fixture) : List Fixture :=
  (fixtures.filter (fun f => !f.finished)).filter (fun f => f.team_a == tid)

/-- `(home_fixtures + away_fixtures)[:5]`. -/
def next5Fixtures (tid : ℕ) (fixtures : List Fixture) : List Fixture :=
  (homeFixtures tid fixtures ++ awayFixtures tid fixtures).take 5

/-- The resolvable kickoff timestamps among the next-5 fixtures. -/
def next5Dates (tid : ℕ) (fixtures : List Fixture) : List ℕ :=
  (next5Fixtures tid fixtures).filterMap (fun f => f.kickoff_time)

/-- `[(dates[i+1] - dates[i]).days for i in range(len-1)]`: each consecutive
gap in whole days; `timedelta.days` floors, so on a sorted (ascending) list
this is truncating division of the second difference by 86400. -/
def dayGaps : List ℕ → List ℕ
  | a :: b :: rest => (b - a) / 86400 :: dayGaps (b :: rest)
  | _ => []

/-- The `avg_days_between_fixtures` local variable: `None` unless at least two
timestamps resolved; otherwise the mean of the day gaps of the sorted dates. -/
def avgDaysRaw (dates : List ℕ) : Option ℚ :=
  if 2 ≤ dates.length then
    let gaps := dayGaps (List.insertionSort (fun a b => a ≤ b) dates)
    if gaps = [] then none else some ((gaps.sum : ℚ) / (gaps.length : ℚ))
  else none

/-- Per-gap truncation as the claim describes it: the floor of each
consecutive timestamp difference measured in exact (rational) days. On a
sorted list this is what `timedelta.days` produces gap by gap; it is the
comparison point showing truncation happens before, not after, averaging. -/
def floorDayGaps : List ℕ → List ℚ
  | a :: b :: rest =>
      ((⌊((b : ℚ) - (a : ℚ)) / 86400⌋ : ℤ) : ℚ) :: floorDayGaps (b :: rest)
  | _ => []

/-- The loop body of `fetch_fixture_congestion` for one team. The Python
guard `if avg_days_between_fixtures:` is truthiness: both `None` and a mean
of `0.0` take the else branch, for the congestion level and for the stored
(rounded) average alike. -/
def fetch_fixture_congestion_team (tid : ℕ) (name : String)
    (fixtures : List Fixture) : TeamCongestionRow :=
  let avg := avgDaysRaw (next5Dates tid fixtures)
  { team_id := tid, team_name := name,
    total_upcoming_fixtures :=
      (homeFixtures tid fixtures).length + (awayFixtures tid fixtures).length,
    next_5_fixtures_count := (next5Fixtures tid fixtures).length,
    avg_days_between_fixtures :=
      match avg with
      | some a => if a = 0 then none else some (round1 a)
      | none => none,
    congestion_level :=
      match avg with
      | some a =>
          if a = 0 then "Unknown"
          else if a < 4 then "High"
          else if a < 6 then "Medium"
          else "Low"
      | none => "Unknown",
    home_fixtures_upcoming := (homeFixtures tid fixtures).length,
    away_fixtures_upcoming := (awayFixtures tid fixtures).length }

/-! ## merge_all_datasets.py

Basic-table columns other than the two join keys play no role in the merge
logic; the merged row carries the join keys and every history / congestion
column the merge step reads or fills. After the cleanup step the history
table's `player_id` / `player_name` are dropped, and the congestion table's
`team_name` (suffixed `_team`, since the basic table has its own `team_name`)
is dropped; `team_id` is the join key and stays a single column. An `Option`
field of `MergedRow` is `none` exactly when the pandas cell is NaN. -/

/-- One row of the base player table (the columns the merge keys on). -/
structure BasicRow where
  id : ℕ
  team_id : ℕ
deriving DecidableEq

/-- One row of the merged table, before and after `fillna`. -/
structure MergedRow where
  id : ℕ
  team_id : ℕ
  games_played : Option ℕ
  recent_minutes_last_5 : Option ℕ
  recent_games_last_5 : Option ℕ
  avg_minutes_per_game_last_5 : Option ℚ
  times_unavailable_last_10 : Option ℕ
  max_consecutive_unavailable : Option ℕ
  total_minutes_last_10 : Option ℕ
  games_started_last_10 : Option ℕ
  workload_trend : Option String
  total_upcoming_fixtures : Option ℕ
  next_5_fixtures_count : Option ℕ
  avg_days_between_fixtures : Option ℚ
  congestion_level : Option String
  home_fixtures_upcoming : Option ℕ
  away_fixtures_upcoming : Option ℕ
deriving DecidableEq

/-- The right side a left merge pairs one left row with: every matching
right row, or a single all-NaN (`none`) right side when nothing matches. -/
def leftOption {α : Type} : List α → List (Option α)
  | [] => [none]
  | xs => xs.map some

/-- pandas left merge of the base table with the history table on
`id = player_id`. -/
def joinHist (basics : List BasicRow) (hist : List PlayerHistoryRow) :
    List (BasicRow × Option PlayerHistoryRow) :=
  basics.flatMap fun b =>
    (leftOption (hist.filter (fun h => h.player_id == b.id))).map (fun oh => (b, oh))

/-- pandas left merge of the result with the congestion table on `team_id`. -/
def joinCong (rows : List (BasicRow × Option PlayerHistoryRow))
    (cong : List TeamCongestionRow) :
    List (BasicRow × Option PlayerHistoryRow × Option TeamCongestionRow) :=
  rows.flatMap fun r =>
    (leftOption (cong.filter (fun c => c.team_id == r.1.team_id))).map
      (fun oc => (r.1, r.2, oc))

/-- Assemble one merged row from a join result (after the duplicate-column
cleanup). A missing history or congestion side leaves NaN in its columns;
a matched congestion row still leaves NaN in `avg_days_between_fixtures`
when that CSV cell was written from Python `None`. -/
def toMergedRow (b : BasicRow) (h : Option PlayerHistoryRow)
    (c : Option TeamCongestionRow) : MergedRow :=
  { id := b.id, team_id := b.team_id,
    games_played := h.map (fun x => x.games_played),
    recent_minutes_last_5 := h.map (fun x => x.recent_minutes_last_5),
    recent_games_last_5 := h.map (fun x => x.recent_games_last_5),
    avg_minutes_per_game_last_5 := h.map (fun x => x.avg_minutes_per_game_last_5),
    times_unavailable_last_10 := h.map (fun x => x.times_unavailable_last_10),
    max_consecutive_unavailable := h.map (fun x => x.max_consecutive_unavailable),
    total_minutes_last_10 := h.map (fun x => x.total_minutes_last_10),
    games_started_last_10 := h.map (fun x => x.games_started_last_10),
    workload_trend := h.map (fun x => x.workload_trend),
    total_upcoming_fixtures := c.map (fun x => x.total_upcoming_fixtures),
    next_5_fixtures_count := c.map (fun x => x.next_5_fixtures_count),
    avg_days_between_fixtures := c.bind (fun x => x.avg_days_between_fixtures),
    congestion_level := c.map (fun x => x.congestion_level),
    home_fixtures_upcoming := c.map (fun x => x.home_fixtures_upcoming),
    away_fixtures_upcoming := c.map (fun x => x.away_fixtures_upcoming) }

/-- The `df_merged.fillna({...})` step, restricted to the modelled columns:
it fills exactly recent_minutes_last_5, recent_games_last_5,
avg_minutes_per_game_last_5, times_unavailable_last_10,
max_consecutive_unavailable, avg_days_between_fixtures and congestion_level
(the remaining dict keys are base-table columns); every other column is left
as it is. -/
def fillnaRow (r : MergedRow) : MergedRow :=
  { r with
    recent_minutes_last_5 := some (r.recent_minutes_last_5.getD 0),
    recent_games_last_5 := some (r.recent_games_last_5.getD 0),
    avg_minutes_per_game_last_5 := some (r.avg_minutes_per_game_last_5.getD 0),
    times_unavailable_last_10 := some (r.times_unavailable_last_10.getD 0),
    max_consecutive_unavailable := some (r.max_consecutive_unavailable.getD 0),
    avg_days_between_fixtures := some (r.avg_days_between_fixtures.getD 7),
    congestion_level := some (r.congestion_level.getD "Unknown") }

/-- The two merges, cleanup and fillna of `merge_all_datasets`, given the
three loaded tables. -/
def mergeTables (basics : List BasicRow) (hist : List PlayerHistoryRow)
    (cong : List TeamCongestionRow) : List MergedRow :=
  (joinCong (joinHist basics hist) cong).map
    (fun t => fillnaRow (toMergedRow t.1 t.2.1 t.2.2))

/-- `merge_all_datasets`: a `none` input models a missing CSV
(`FileNotFoundError`), on which the function returns `None` before merging. -/
def merge_all_datasets (basics : Option (List BasicRow))
    (hist : Option (List PlayerHistoryRow))
    (cong : Option (List TeamCongestionRow)) : Option (List MergedRow) :=
  match basics, hist, cong with
  | some b, some h, some c => some (mergeTables b h c)
  | _, _, _ => none

/-! ## Theorems -/

/-- The congestion-level map as amended: "Unknown" when the average is
undefined or equals zero; otherwise "High" below 4, "Medium" in [4, 6),
"Low" at or above 6. -/
def congestionLevelSpec (avg : Option ℚ) : String :=
  match avg with
  | none => "Unknown"
  | some a =>
      if a = 0 then "Unknown"
      else if a < 4 then "High"
      else if a < 6 then "Medium"
      else "Low"

/-- C1 (counterexample): a team with two resolvable kickoff timestamps one
hour apart has a defined average gap (of 0 days), yet its congestion level
is "Unknown", not "High" as the claim requires for a defined average < 4. -/
theorem C1_counterexample :
    2 ≤ (next5Dates 1 [⟨1, 2, false, some 0⟩, ⟨1, 3, false, some 3600⟩]).length ∧
    (fetch_fixture_congestion_team 1 "A"
      [⟨1, 2, false, some 0⟩, ⟨1, 3, false, some 3600⟩]).congestion_level = "Unknown" ∧
    "Unknown" ≠ "High" := by
  refine ⟨by decide, ?_, by decide⟩
  norm_num [fetch_fixture_congestion_team, avgDaysRaw, dayGaps, next5Dates, next5Fixtures,
    homeFixtures, awayFixtures, List.insertionSort, List.orderedInsert, List.filter,
    List.filterMap]

/-- C1 (amended): congestion_level is "Unknown" iff the average is undefined
or equals 0 (Python truthiness); otherwise "High" when avg < 4, "Medium"
when 4 ≤ avg < 6, and "Low" when avg ≥ 6. -/
theorem C1_congestion_level (tid : ℕ) (name : String) (fixtures : List Fixture) :
    (fetch_fixture_congestion_team tid name fixtures).congestion_level =
      congestionLevelSpec (avgDaysRaw (next5Dates tid fixtures)) := by
  unfold fetch_fixture_congestion_team congestionLevelSpec
  cases avgDaysRaw (next5Dates tid fixtures) <;> rfl

/-- C4: for a history of at least 10 entries the workload trend compares the
mean minutes of the last 5 entries against 1.3 (resp. 0.7) times the mean
minutes of the entries at positions [-10:-5]; a non-empty history of fewer
than 10 entries gets "insufficient_data". -/
theorem C4_workload_trend (pid : ℕ) (name : String) (history : List ℕ) :
    (10 ≤ history.length →
      (computePlayerHistory pid name history).workload_trend =
        (if ((((history.drop (history.length - 10)).take 5).sum : ℚ) / 5) * (13/10)
              < (((history.drop (history.length - 5)).sum : ℚ) / 5) then "increasing"
          else if (((history.drop (history.length - 5)).sum : ℚ) / 5)
              < ((((history.drop (history.length - 10)).take 5).sum : ℚ) / 5) * (7/10) then
            "decreasing"
          else "stable")) ∧
    (history ≠ [] → history.length < 10 →
      (computePlayerHistory pid name history).workload_trend = "insufficient_data") := by
  constructor
  · intro h10
    have hne : history ≠ [] := by
      intro h
      rw [h] at h10
      simp at h10
    simp only [computePlayerHistory, if_neg hne, if_pos h10]
  · intro hne hlt
    simp only [computePlayerHistory, if_neg hne, if_neg (by omega : ¬ 10 ≤ history.length)]

/-- C4 witness at two concrete histories. -/
theorem C4_workload_trend_witness :
    ((10:ℕ) ≤ ([0,0,0,0,0,90,90,90,90,90] : List ℕ).length ∧
      (computePlayerHistory 1 "w" [0,0,0,0,0,90,90,90,90,90]).workload_trend = "increasing") ∧
    (([1,2,3] : List ℕ) ≠ [] ∧ ([1,2,3] : List ℕ).length < 10 ∧
      (computePlayerHistory 2 "v" [1,2,3]).workload_trend = "insufficient_data") := by
  refine ⟨⟨by decide, ?_⟩, by decide, by decide,
    (C4_workload_trend 2 "v" [1,2,3]).2 (by decide) (by decide)⟩
  rw [(C4_workload_trend 1 "w" [0,0,0,0,0,90,90,90,90,90]).1 (by decide)]
  norm_num

/-- C5: avg_minutes_per_game_last_5 is recent_minutes_last_5 divided by the
window size min(5, games_played), rounded to one decimal place, when
games_played > 0; it is 0 when games_played = 0. -/
theorem C5_avg_minutes (pid : ℕ) (name : String) (history : List ℕ) :
    (0 < (computePlayerHistory pid name history).games_played →
      (computePlayerHistory pid name history).avg_minutes_per_game_last_5 =
        round1 (((computePlayerHistory pid name history).recent_minutes_last_5 : ℚ) /
          ((min 5 (computePlayerHistory pid name history).games_played : ℕ) : ℚ))) ∧
    ((computePlayerHistory pid name history).games_played = 0 →
      (computePlayerHistory pid name history).avg_minutes_per_game_last_5 = 0) := by
  by_cases hne : history = []
  · subst hne
    constructor
    · intro h
      simp [computePlayerHistory, zeroHistoryRow] at h
    · intro _
      simp [computePlayerHistory, zeroHistoryRow]
  · have hlen : 0 < history.length := List.length_pos.mpr hne
    have hdrop : (history.drop (history.length - 5)).length = min 5 history.length := by
      rw [List.length_drop]
      omega
    have hne5 : history.drop (history.length - 5) ≠ [] := by
      refine List.ne_nil_of_length_pos ?_
      rw [hdrop]
      omega
    constructor
    · intro _
      simp only [computePlayerHistory, if_neg hne, if_neg hne5, hdrop]
    · intro h0
      simp only [computePlayerHistory, if_neg hne] at h0
      omega

/-- C5 witness: history [30, 60] has window size 2 and average 45. -/
theorem C5_avg_minutes_witness :
    0 < (computePlayerHistory 1 "w" [30, 60]).games_played ∧
    (computePlayerHistory 1 "w" [30, 60]).avg_minutes_per_game_last_5 =
      round1 ((90 : ℚ) / 2) := by
  have hmin : (computePlayerHistory 1 "w" [30, 60]).recent_minutes_last_5 = 90 := by decide
  have hgp : (computePlayerHistory 1 "w" [30, 60]).games_played = 2 := by decide
  refine ⟨by decide, ?_⟩
  rw [(C5_avg_minutes 1 "w" [30, 60]).1 (by decide), hmin, hgp]
  norm_num

/-- C6 (counterexample): the record for an empty (but obtained) history has
games_played = 0 < 10 yet workload_trend "none", not "insufficient_data". -/
theorem C6_counterexample :
    (computePlayerHistory 1 "p" []).games_played < 10 ∧
    (computePlayerHistory 1 "p" []).workload_trend = "none" ∧
    (computePlayerHistory 1 "p" []).workload_trend ≠ "insufficient_data" := by
  refine ⟨by decide, by decide, by decide⟩

/-- C6 (amended): among records computed from an obtained history,
workload_trend is "insufficient_data" whenever 0 < games_played < 10 and is
"none" iff games_played = 0; the record for a player whose fetch failed has
workload_trend "error" (with games_played = 0) instead. -/
theorem C6_trend_games_played (pid : ℕ) (name : String) (history : List ℕ) :
    (0 < (computePlayerHistory pid name history).games_played →
      (computePlayerHistory pid name history).games_played < 10 →
      (computePlayerHistory pid name history).workload_trend = "insufficient_data") ∧
    ((computePlayerHistory pid name history).workload_trend = "none" ↔
      (computePlayerHistory pid name history).games_played = 0) ∧
    (∀ source : ℕ → Option (List ℕ), source pid = none →
      fetch_player_history [(pid, name)] source =
        [zeroHistoryRow pid name "error"]) := by
  refine ⟨?_, ?_, ?_⟩
  · intro hpos hlt
    by_cases hne : history = []
    · subst hne
      simp [computePlayerHistory, zeroHistoryRow] at hpos
    · simp only [computePlayerHistory, if_neg hne] at hpos hlt ⊢
      rw [if_neg (by omega : ¬ 10 ≤ history.length)]
  · by_cases hne : history = []
    · subst hne
      simp [computePlayerHistory, zeroHistoryRow]
    · simp only [computePlayerHistory, if_neg hne]
      have hlen : history.length ≠ 0 := fun h => hne (List.length_eq_zero.mp h)
      constructor
      · intro htr
        exfalso
        revert htr
        split_ifs <;> decide
      · intro h
        exact absurd h hlen
  · intro source hs
    simp [fetch_player_history, hs]

/-- C6 witness at concrete inputs. -/
theorem C6_trend_games_played_witness :
    ((computePlayerHistory 1 "w" [45, 45]).workload_trend = "insufficient_data") ∧
    ((computePlayerHistory 1 "w" []).workload_trend = "none") ∧
    (fetch_player_history [(3, "e")] (fun _ => none) =
      [zeroHistoryRow 3 "e" "error"]) := by
  refine ⟨(C6_trend_games_played 1 "w" [45, 45]).1 (by decide) (by decide),
    (C6_trend_games_played 1 "w" []).2.1.mpr (by decide),
    (C6_trend_games_played 3 "e" []).2.2 (fun _ => none) rfl⟩

/-- C8: the merge returns no output iff a required input table is absent;
a missing base, history or congestion file aborts the whole merge. -/
theorem C8_missing_input (basics : Option (List BasicRow))
    (hist : Option (List PlayerHistoryRow))
    (cong : Option (List TeamCongestionRow)) :
    merge_all_datasets basics hist cong = none ↔
      basics = none ∨ hist = none ∨ cong = none := by
  cases basics <;> cases hist <;> cases cong <;> simp [merge_all_datasets]

lemma dayGaps_length (l : List ℕ) : (dayGaps l).length = l.length - 1 := by
  induction l with
  | nil => rfl
  | cons a t ih =>
    cases t with
    | nil => rfl
    | cons b rest =>
      simp only [dayGaps, List.length_cons]
      rw [ih]
      simp

lemma floor_gap_cast (a b : ℕ) (h : a ≤ b) :
    (((b - a) / 86400 : ℕ) : ℚ) = ((⌊((b : ℚ) - (a : ℚ)) / 86400⌋ : ℤ) : ℚ) := by
  rw [show (b : ℚ) - (a : ℚ) = ((b - a : ℕ) : ℚ) from by rw [Nat.cast_sub h]]
  rw [← natCast_floor_eq_intCast_floor
    (div_nonneg (Nat.cast_nonneg _) (by norm_num : (0:ℚ) ≤ 86400))]
  norm_cast

lemma dayGaps_map_cast (l : List ℕ) (h : List.Chain' (fun a b => a ≤ b) l) :
    (dayGaps l).map (Nat.cast : ℕ → ℚ) = floorDayGaps l := by
  induction l with
  | nil => rfl
  | cons a t ih =>
    cases t with
    | nil => rfl
    | cons b rest =>
      rw [List.chain'_cons] at h
      simp only [dayGaps, floorDayGaps, List.map_cons]
      rw [ih h.2]
      exact congrArg (fun q => List.cons q (floorDayGaps (b :: rest)))
        (floor_gap_cast a b h.1)

/-- C9: for any window of at least two resolvable kickoff timestamps (epoch
seconds), the computed average is the mean of the per-gap floors: each
consecutive gap of the sorted timestamps is truncated to whole days before
the gaps are averaged, rather than the exact gaps being averaged and the
mean truncated. -/
theorem C9_gap_truncation (dates : List ℕ) (h : 2 ≤ dates.length) :
    avgDaysRaw dates =
      some ((floorDayGaps (List.insertionSort (fun a b => a ≤ b) dates)).sum /
        ((floorDayGaps (List.insertionSort (fun a b => a ≤ b) dates)).length : ℚ)) := by
  have hchain : List.Chain' (fun a b => a ≤ b)
      (List.insertionSort (fun a b => a ≤ b) dates) :=
    (List.sorted_insertionSort _ dates).chain'
  have hmap := dayGaps_map_cast _ hchain
  have hlen : (dayGaps (List.insertionSort (fun a b => a ≤ b) dates)).length
      = dates.length - 1 := by
    rw [dayGaps_length, List.length_insertionSort]
  have hne : dayGaps (List.insertionSort (fun a b => a ≤ b) dates) ≠ [] := by
    refine List.ne_nil_of_length_pos ?_
    rw [hlen]
    omega
  simp only [avgDaysRaw]
  rw [if_pos h, if_neg hne, ← hmap, List.length_map, ← Nat.cast_list_sum]

/-- C9 witness: kickoffs at 0, 1.5 days and 4 days give gaps of 1.5 and 2.5
exact days; truncating each gap first averages ⌊1.5⌋ and ⌊2.5⌋ to 3/2,
whereas averaging the exact gaps and then truncating would give ⌊2⌋ = 2. -/
theorem C9_gap_truncation_witness :
    2 ≤ ([0, 129600, 345600] : List ℕ).length ∧
    avgDaysRaw [0, 129600, 345600] = some (3/2) ∧
    (3/2 : ℚ) ≠
      ((⌊((((129600 : ℚ) - 0) / 86400) + (((345600 : ℚ) - 129600) / 86400)) / 2⌋ : ℤ) : ℚ) := by
  refine ⟨by decide, ?_, ?_⟩
  · rw [C9_gap_truncation [0, 129600, 345600] (by decide)]
    norm_num [List.insertionSort, List.orderedInsert, floorDayGaps]
  · norm_num

/-- C7: a failed per-player fetch yields an all-zero record with trend
"error" at that player's position, every other player's record is computed
normally, and the batch always has one record per player. -/
theorem C7_per_player_failure (players : List (ℕ × String))
    (source : ℕ → Option (List ℕ)) :
    (fetch_player_history players source).length = players.length ∧
    (∀ (i : ℕ) (p : ℕ × String), players[i]? = some p → source p.1 = none →
      (fetch_player_history players source)[i]? =
        some { player_id := p.1, player_name := p.2, games_played := 0,
               recent_minutes_last_5 := 0, recent_games_last_5 := 0,
               avg_minutes_per_game_last_5 := 0, times_unavailable_last_10 := 0,
               max_consecutive_unavailable := 0, total_minutes_last_10 := 0,
               games_started_last_10 := 0, workload_trend := "error" }) ∧
    (∀ (i : ℕ) (p : ℕ × String) (history : List ℕ), players[i]? = some p → source p.1 = some history →
      (fetch_player_history players source)[i]? =
        some (computePlayerHistory p.1 p.2 history)) := by
  refine ⟨List.length_map _ _, ?_, ?_⟩
  · intro i p hp hs
    simp only [fetch_player_history, List.getElem?_map, hp, Option.map_some']
    rw [hs]
    rfl
  · intro i p history hp hs
    simp only [fetch_player_history, List.getElem?_map, hp, Option.map_some']
    rw [hs]

/-- C7 witness: in a two-player batch where the first player's fetch fails,
the first record is the "error" placeholder and the second is computed. -/
theorem C7_per_player_failure_witness :
    (fetch_player_history [(1, "a"), (2, "b")]
        (fun pid => if pid = 1 then none else some [90]))[0]? =
      some { player_id := 1, player_name := "a", games_played := 0,
             recent_minutes_last_5 := 0, recent_games_last_5 := 0,
             avg_minutes_per_game_last_5 := 0, times_unavailable_last_10 := 0,
             max_consecutive_unavailable := 0, total_minutes_last_10 := 0,
             games_started_last_10 := 0, workload_trend := "error" } ∧
    (fetch_player_history [(1, "a"), (2, "b")]
        (fun pid => if pid = 1 then none else some [90]))[1]? =
      some (computePlayerHistory 2 "b" [90]) := by
  refine ⟨(C7_per_player_failure [(1, "a"), (2, "b")] _).2.1 0 (1, "a") rfl rfl,
    (C7_per_player_failure [(1, "a"), (2, "b")] _).2.2 1 (2, "b") [90] rfl rfl⟩

lemma leftOption_length {α : Type} (l : List α) :
    (leftOption l).length = max 1 l.length := by
  cases l with
  | nil => rfl
  | cons x xs => simp [leftOption]

lemma leftOption_ne_nil {α : Type} (l : List α) : leftOption l ≠ [] := by
  intro h
  have := congrArg List.length h
  rw [leftOption_length] at this
  simp at this

lemma mem_leftOption {α : Type} {l : List α} {x : Option α}
    (h : x ∈ leftOption l) :
    (x = none ∧ l = []) ∨ ∃ y, x = some y ∧ y ∈ l := by
  cases l with
  | nil =>
    left
    simp [leftOption] at h
    exact ⟨h, rfl⟩
  | cons a as =>
    right
    simp only [leftOption, List.mem_map] at h
    obtain ⟨y, hy, rfl⟩ := h
    exact ⟨y, rfl, hy⟩

lemma length_filter_key_le_one {α : Type} (f : α → ℕ) (l : List α) (k : ℕ)
    (h : (l.map f).Nodup) : (l.filter (fun x => f x == k)).length ≤ 1 := by
  induction l with
  | nil => simp
  | cons a t ih =>
    rw [List.map_cons, List.nodup_cons] at h
    obtain ⟨ha, ht⟩ := h
    rw [List.filter_cons]
    by_cases hk : f a = k
    · rw [if_pos (by simpa using hk)]
      have hnil : t.filter (fun x => f x == k) = [] := by
        rw [List.filter_eq_nil_iff]
        intro x hx hfx
        simp only [beq_iff_eq] at hfx
        apply ha
        rw [hk, ← hfx]
        exact List.mem_map_of_mem f hx
      simp [hnil]
    · rw [if_neg (by simpa using hk)]
      exact ih ht

lemma joinHist_length (basics : List BasicRow) (hist : List PlayerHistoryRow)
    (h : (hist.map (fun x => x.player_id)).Nodup) :
    (joinHist basics hist).length = basics.length := by
  induction basics with
  | nil => rfl
  | cons b bs ih =>
    rw [joinHist, List.flatMap_cons, List.length_append, List.length_map,
      leftOption_length]
    have := length_filter_key_le_one (fun x => x.player_id) hist b.id h
    simp only [] at this
    rw [← joinHist, ih]
    simp only [List.length_cons]
    omega

lemma joinCong_length (rows : List (BasicRow × Option PlayerHistoryRow))
    (cong : List TeamCongestionRow)
    (h : (cong.map (fun x => x.team_id)).Nodup) :
    (joinCong rows cong).length = rows.length := by
  induction rows with
  | nil => rfl
  | cons r rs ih =>
    rw [joinCong, List.flatMap_cons, List.length_append, List.length_map,
      leftOption_length]
    have := length_filter_key_le_one (fun x => x.team_id) cong r.1.team_id h
    simp only [] at this
    rw [← joinCong, ih]
    simp only [List.length_cons]
    omega

/-- C2: when player ids are unique in the history table and team ids are
unique in the congestion table, the merged output has exactly one row per
base-player row. -/
theorem C2_row_count (basics : List BasicRow) (hist : List PlayerHistoryRow)
    (cong : List TeamCongestionRow)
    (hh : (hist.map (fun x => x.player_id)).Nodup)
    (hc : (cong.map (fun x => x.team_id)).Nodup) :
    (mergeTables basics hist cong).length = basics.length := by
  rw [mergeTables, List.length_map, joinCong_length _ _ hc,
    joinHist_length _ _ hh]

/-- C2 witness: two base players, a one-row history table and a one-row
congestion table with unique keys merge to exactly two rows. -/
theorem C2_row_count_witness :
    (([zeroHistoryRow 1 "x" "none"].map (fun x => x.player_id)).Nodup ∧
      ([⟨1, "T", 3, 3, some 5, "Medium", 2, 1⟩].map
        (fun x : TeamCongestionRow => x.team_id)).Nodup) ∧
    (mergeTables [⟨1, 1⟩, ⟨2, 1⟩] [zeroHistoryRow 1 "x" "none"]
      [⟨1, "T", 3, 3, some 5, "Medium", 2, 1⟩]).length = 2 := by
  refine ⟨⟨by decide, by decide⟩, ?_⟩
  rw [C2_row_count _ _ _ (by decide) (by decide)]
  rfl

lemma mem_joinHist {basics : List BasicRow} {hist : List PlayerHistoryRow}
    {x : BasicRow × Option PlayerHistoryRow} (hx : x ∈ joinHist basics hist) :
    x.1 ∈ basics ∧
    ((x.2 = none ∧ hist.filter (fun h => h.player_id == x.1.id) = []) ∨
     (∃ hrow, x.2 = some hrow ∧ hrow ∈ hist ∧ hrow.player_id = x.1.id)) := by
  rw [joinHist, List.mem_flatMap] at hx
  obtain ⟨b, hb, hmem⟩ := hx
  rw [List.mem_map] at hmem
  obtain ⟨oh, hoh, rfl⟩ := hmem
  refine ⟨hb, ?_⟩
  rcases mem_leftOption hoh with ⟨rfl, hnil⟩ | ⟨y, rfl, hy⟩
  · exact Or.inl ⟨rfl, hnil⟩
  · rw [List.mem_filter] at hy
    exact Or.inr ⟨y, rfl, hy.1, by simpa using hy.2⟩

lemma mem_joinCong {rows : List (BasicRow × Option PlayerHistoryRow)}
    {cong : List TeamCongestionRow}
    {x : BasicRow × Option PlayerHistoryRow × Option TeamCongestionRow}
    (hx : x ∈ joinCong rows cong) :
    (x.1, x.2.1) ∈ rows ∧
    ((x.2.2 = none ∧ cong.filter (fun c => c.team_id == x.1.team_id) = []) ∨
     (∃ crow, x.2.2 = some crow ∧ crow ∈ cong ∧ crow.team_id = x.1.team_id)) := by
  rw [joinCong, List.mem_flatMap] at hx
  obtain ⟨r, hr, hmem⟩ := hx
  rw [List.mem_map] at hmem
  obtain ⟨oc, hoc, rfl⟩ := hmem
  refine ⟨hr, ?_⟩
  rcases mem_leftOption hoc with ⟨rfl, hnil⟩ | ⟨y, rfl, hy⟩
  · exact Or.inl ⟨rfl, hnil⟩
  · rw [List.mem_filter] at hy
    exact Or.inr ⟨y, rfl, hy.1, by simpa using hy.2⟩

/-- C3 (counterexample): a base player with no history match and no
congestion match still has missing values in the merged table: the columns
games_played, workload_trend and total_upcoming_fixtures are not in the
fillna map, so NaN survives into the merged output. -/
theorem C3_counterexample :
    (mergeTables [⟨1, 1⟩] [] []).map
        (fun r => (r.games_played, r.workload_trend, r.total_upcoming_fixtures)) =
      [(none, none, none)] := by
  rfl

/-- C3 (amended): every merged row has defined values in the seven modelled
fillna columns; a player with no history match gets the five zero defaults
(while games_played, total_minutes_last_10, games_started_last_10 and
workload_trend stay missing), and a player whose team has no congestion
match gets avg_days_between_fixtures = 7 and congestion_level "Unknown"
(while total_upcoming_fixtures stays missing). -/
theorem C3_merge_defaults (basics : List BasicRow)
    (hist : List PlayerHistoryRow) (cong : List TeamCongestionRow)
    (r : MergedRow) (hr : r ∈ mergeTables basics hist cong) :
    (r.recent_minutes_last_5 ≠ none ∧ r.recent_games_last_5 ≠ none ∧
     r.avg_minutes_per_game_last_5 ≠ none ∧ r.times_unavailable_last_10 ≠ none ∧
     r.max_consecutive_unavailable ≠ none ∧ r.avg_days_between_fixtures ≠ none ∧
     r.congestion_level ≠ none) ∧
    ((∀ h ∈ hist, h.player_id ≠ r.id) →
      r.recent_minutes_last_5 = some 0 ∧ r.recent_games_last_5 = some 0 ∧
      r.avg_minutes_per_game_last_5 = some 0 ∧
      r.times_unavailable_last_10 = some 0 ∧
      r.max_consecutive_unavailable = some 0 ∧
      r.games_played = none ∧ r.total_minutes_last_10 = none ∧
      r.games_started_last_10 = none ∧ r.workload_trend = none) ∧
    ((∀ c ∈ cong, c.team_id ≠ r.team_id) →
      r.avg_days_between_fixtures = some 7 ∧
      r.congestion_level = some "Unknown" ∧
      r.total_upcoming_fixtures = none) := by
  rw [mergeTables, List.mem_map] at hr
  obtain ⟨t, ht, rfl⟩ := hr
  obtain ⟨hrows, hcong⟩ := mem_joinCong ht
  obtain ⟨_, hhist⟩ := mem_joinHist hrows
  refine ⟨?_, ?_, ?_⟩
  · simp [fillnaRow]
  · intro hno
    have hid : (fillnaRow (toMergedRow t.1 t.2.1 t.2.2)).id = t.1.id := rfl
    have h2 : t.2.1 = none := by
      rcases hhist with ⟨hnone, _⟩ | ⟨hrow, hsome, hmem, hkey⟩
      · exact hnone
      · exact absurd (hid ▸ hkey) (hno hrow hmem)
    simp [fillnaRow, toMergedRow, h2]
  · intro hno
    have hteam : (fillnaRow (toMergedRow t.1 t.2.1 t.2.2)).team_id = t.1.team_id := rfl
    have h3 : t.2.2 = none := by
      rcases hcong with ⟨hnone, _⟩ | ⟨crow, hsome, hmem, hkey⟩
      · exact hnone
      · exact absurd (hteam ▸ hkey) (hno crow hmem)
    simp [fillnaRow, toMergedRow, h3]

/-- C3 witness at a concrete fully-unmatched merge. -/
theorem C3_merge_defaults_witness :
    fillnaRow (toMergedRow ⟨1, 2⟩ none none) ∈ mergeTables [⟨1, 2⟩] [] [] ∧
    (fillnaRow (toMergedRow ⟨1, 2⟩ none none)).recent_minutes_last_5 = some 0 ∧
    (fillnaRow (toMergedRow ⟨1, 2⟩ none none)).max_consecutive_unavailable = some 0 ∧
    (fillnaRow (toMergedRow ⟨1, 2⟩ none none)).games_played = none ∧
    (fillnaRow (toMergedRow ⟨1, 2⟩ none none)).workload_trend = none ∧
    (fillnaRow (toMergedRow ⟨1, 2⟩ none none)).avg_days_between_fixtures = some 7 ∧
    (fillnaRow (toMergedRow ⟨1, 2⟩ none none)).congestion_level = some "Unknown" ∧
    (fillnaRow (toMergedRow ⟨1, 2⟩ none none)).total_upcoming_fixtures = none := by
  have h := C3_merge_defaults [⟨1, 2⟩] [] [] (fillnaRow (toMergedRow ⟨1, 2⟩ none none))
    (List.mem_singleton.mpr rfl)
  obtain ⟨-, h2, h3⟩ := h
  have h2 := h2 (by simp)
  have h3 := h3 (by simp)
  exact ⟨List.mem_singleton.mpr rfl, h2.1, h2.2.2.2.2.1, h2.2.2.2.2.2.1,
    h2.2.2.2.2.2.2.2.2, h3.1, h3.2.1, h3.2.2⟩

lemma joinHist_ne_nil {basics : List BasicRow} (h : basics ≠ [])
    (hist : List PlayerHistoryRow) : joinHist basics hist ≠ [] := by
  obtain ⟨b, bs, rfl⟩ := List.exists_cons_of_ne_nil h
  rw [joinHist, List.flatMap_cons]
  intro hh
  rcases List.append_eq_nil.mp hh with ⟨h1, -⟩
  rw [List.map_eq_nil_iff] at h1
  exact leftOption_ne_nil _ h1

lemma joinCong_ne_nil {rows : List (BasicRow × Option PlayerHistoryRow)}
    (h : rows ≠ []) (cong : List TeamCongestionRow) : joinCong rows cong ≠ [] := by
  obtain ⟨r, rs, rfl⟩ := List.exists_cons_of_ne_nil h
  rw [joinCong, List.flatMap_cons]
  intro hh
  rcases List.append_eq_nil.mp hh with ⟨h1, -⟩
  rw [List.map_eq_nil_iff] at h1
  exact leftOption_ne_nil _ h1

lemma mergeTables_ne_nil {basics : List BasicRow} (h : basics ≠ [])
    (hist : List PlayerHistoryRow) (cong : List TeamCongestionRow) :
    mergeTables basics hist cong ≠ [] := by
  rw [mergeTables]
  intro hh
  rw [List.map_eq_nil_iff] at hh
  exact joinCong_ne_nil (joinHist_ne_nil h hist) cong hh

lemma congestion_level_unknown_of_avg_none (tid : ℕ) (name : String)
    (fixtures : List Fixture)
    (h : (fetch_fixture_congestion_team tid name fixtures).avg_days_between_fixtures
      = none) :
    (fetch_fixture_congestion_team tid name fixtures).congestion_level
      = "Unknown" := by
  unfold fetch_fixture_congestion_team at h ⊢
  cases havg : avgDaysRaw (next5Dates tid fixtures) with
  | none => simp only [havg]
  | some a =>
    simp only [havg] at h ⊢
    by_cases ha : a = 0
    · rw [if_pos ha]
    · rw [if_neg ha] at h
      exact absurd h (by simp)

/-- C10: a base player whose team matches a congestion record whose stored
average is missing (Python None) ends up, after fillna, with
avg_days_between_fixtures = 7 while congestion_level stays "Unknown". -/
theorem C10_default_on_matched_undefined_avg (tid : ℕ) (name : String)
    (fixtures : List Fixture) (b : BasicRow) (hist : List PlayerHistoryRow)
    (hteam : b.team_id = tid)
    (hundef : (fetch_fixture_congestion_team tid name fixtures).avg_days_between_fixtures
      = none) :
    (fetch_fixture_congestion_team tid name fixtures).congestion_level = "Unknown" ∧
    mergeTables [b] hist [fetch_fixture_congestion_team tid name fixtures] ≠ [] ∧
    ∀ r ∈ mergeTables [b] hist [fetch_fixture_congestion_team tid name fixtures],
      r.avg_days_between_fixtures = some 7 ∧ r.congestion_level = some "Unknown" := by
  have hlevel := congestion_level_unknown_of_avg_none tid name fixtures hundef
  refine ⟨hlevel, ?_, ?_⟩
  · exact mergeTables_ne_nil (by simp) hist _
  · intro r hr
    rw [mergeTables, List.mem_map] at hr
    obtain ⟨t, ht, rfl⟩ := hr
    obtain ⟨hrows, hcong⟩ := mem_joinCong ht
    obtain ⟨hb, -⟩ := mem_joinHist hrows
    have hb1 : t.1 = b := by simpa using hb
    have hcg : t.2.2 = some (fetch_fixture_congestion_team tid name fixtures) := by
      rcases hcong with ⟨-, hnil⟩ | ⟨crow, hsome, hmem, -⟩
      · exfalso
        rw [List.filter_eq_nil_iff] at hnil
        refine hnil (fetch_fixture_congestion_team tid name fixtures)
          (List.mem_singleton.mpr rfl) ?_
        simp [fetch_fixture_congestion_team, hb1, hteam]
      · rw [hsome, List.mem_singleton.mp hmem]
    constructor
    · show some ((t.2.2.bind
        (fun x => x.avg_days_between_fixtures)).getD 7) = some 7
      rw [hcg]
      simp [hundef]
    · show some ((t.2.2.map (fun x => x.congestion_level)).getD "Unknown")
        = some "Unknown"
      rw [hcg]
      simp [hlevel]

/-- C10 witness: a team with no fixtures has an undefined stored average;
its player's merged row gets avg 7 with level "Unknown". -/
theorem C10_default_on_matched_undefined_avg_witness :
    ((⟨5, 1⟩ : BasicRow).team_id = 1 ∧
      (fetch_fixture_congestion_team 1 "T" []).avg_days_between_fixtures = none) ∧
    ∀ r ∈ mergeTables [⟨5, 1⟩] [] [fetch_fixture_congestion_team 1 "T" []],
      r.avg_days_between_fixtures = some 7 ∧ r.congestion_level = some "Unknown" := by
  refine ⟨⟨rfl, rfl⟩,
    (C10_default_on_matched_undefined_avg 1 "T" [] ⟨5, 1⟩ [] rfl rfl).2.2⟩
